import Mathlib

/-!
Verification development for the collaborative-whiteboard client
(components/Whiteboard.jsx and pages/index.jsx, a Next.js + fabric.js +
socket.io frontend). The definitions below are a shallow embedding of the
client's synchronization core: the fabric canvas object collection, the
socket receive handlers, the local-edit emit handlers, and the per-client
undo/redo history machine. Each definition's doc comment points at the
source lines it embeds.
-/

namespace Whiteboard

/-- Value of one serialized fabric object property (the `toObject` property
bag holds strings, numbers and booleans). -/
inductive PropVal where
  | str (s : String)
  | num (n : Int)
  | bool (b : Bool)
deriving DecidableEq

/-- A serialized fabric canvas object as carried on the wire and stored in
the canvas: a stable identifier (`id`, assigned via uuidv4 at creation and
included in `toObject(["id"])`), a fabric type tag (`type`, used by
`classRegistry.getClass`), and the type-specific property bag. -/
structure FabricObject where
  id : String
  type : String
  props : List (String × PropVal)
deriving DecidableEq

/-- A full canvas serialization as produced by `canvas.toJSON()`: the
ordered object collection plus the document-level background color. -/
structure Snapshot where
  objects : List FabricObject
  backgroundColor : String
deriving DecidableEq

/-- The mutable client state of one Whiteboard component instance:
the fabric canvas content (`objects`, `backgroundColor`), the echo
suppression gate (`canvas._isRemote`), and the React state `history` /
`redoStack` (lines 23-24 of the component). -/
structure ClientState where
  objects : List FabricObject
  backgroundColor : String
  isRemote : Bool
  history : List Snapshot
  redoStack : List Snapshot
deriving DecidableEq

/-- Messages the client can emit on the socket (the emit sites of the
component: join-room at line 188, object:added / object:modified /
object:removed at lines 121, 159, 267, 271, 275, 397, 414, and
canvas-action at lines 321, 349, 375). -/
inductive WireMessage where
  | joinRoom (roomId password role username : String)
  | objectAdded (roomId : String) (obj : FabricObject)
  | objectModified (roomId : String) (obj : FabricObject)
  | objectRemoved (roomId : String) (id : String)
  | canvasAction (roomId : String) (action : String)
deriving DecidableEq

/-- Console log entries produced by the receive handlers
(`console.warn` at line 206, `console.error` at line 216). -/
inductive LogEntry where
  | warn (msg : String)
  | error (msg : String)
deriving DecidableEq

/-- Messages the server can deliver to the client. The first six carry the
event names the component registers listeners for (lines 195-254); the
spec's steady-state protocol additionally puts `canvas-action` command
relays on the wire (spec section 4.5 / 6), for which the component
registers no listener. -/
inductive ServerMessage where
  | roomJoined
  | accessDenied (msg : String)
  | objectAdded (obj : FabricObject)
  | objectModified (obj : FabricObject)
  | objectRemoved (id : String)
  | drawing (snapshot : Snapshot)
  | canvasAction (action : String)
deriving DecidableEq

/-- The socket event names for which the component registers a handler in
its socket-setup effect (source lines 195, 196, 201, 226, 238, 248).
There is no `socketRef.current.on("canvas-action", ...)` call anywhere in
the component. -/
def registeredSocketEvents : List String :=
  ["room-joined", "access-denied", "object:added", "object:modified",
   "object:removed", "drawing"]

/-- Receive handler for `object:added` (source lines 201-220).
The handler body is `try { canvas._isRemote = true; ... } catch ... finally
{ canvas._isRemote = false }`, so every exit path below carries
`isRemote := false` (the gate is engaged for the duration of the handler
and released by the finally block on the unknown-type early return, on the
catch path, and on success alike). `g` stands for
`classRegistry.getClass` composed with the asynchronous
`klass.fromObject`: `g obj.type = none` models an unregistered type tag,
and the returned function models reconstruction, with `Except.error`
modelling a thrown reconstruction error. On success the object is added
only if no existing object shares its identifier (lines 211-213). -/
def onObjectAdded (g : String → Option (FabricObject → Except String FabricObject))
    (st : ClientState) (obj : FabricObject) : ClientState × List LogEntry :=
  match g obj.type with
  | none =>
      ({ st with isRemote := false },
       [LogEntry.warn ("Unknown fabric object type: " ++ obj.type)])
  | some fromObject =>
      match fromObject obj with
      | Except.error e =>
          ({ st with isRemote := false },
           [LogEntry.error ("Error restoring object: " ++ e)])
      | Except.ok fabricObj =>
          if st.objects.any (fun o => o.id == fabricObj.id) then
            ({ st with isRemote := false }, [])
          else
            ({ st with objects := st.objects ++ [fabricObj], isRemote := false }, [])

/-- Merge of a property bag onto a target's bag, modelling fabric's
`target.set(obj)`: every key of `obj` overwrites or extends the target's
properties. -/
def mergeProps (old new : List (String × PropVal)) : List (String × PropVal) :=
  old.map (fun p =>
      match new.find? (fun q => q.1 == p.1) with
      | some q => q
      | none => p)
    ++ new.filter (fun q => !(old.any (fun p => p.1 == q.1)))

/-- The effect of `target.set(obj)` on the found target object: all of
`obj`'s serialized fields (id, type, properties) are written onto the
target. -/
def setObjectProps (target obj : FabricObject) : FabricObject :=
  { id := obj.id, type := obj.type, props := mergeProps target.props obj.props }

/-- In-place update of the first object whose id matches `obj.id`,
modelling the mutation of the object returned by
`canvas.getObjects().find(o => o.id === obj.id)`. -/
def setFirstMatching (objs : List FabricObject) (obj : FabricObject) : List FabricObject :=
  match objs with
  | [] => []
  | o :: rest =>
      if o.id == obj.id then setObjectProps o obj :: rest
      else o :: setFirstMatching rest obj

/-- Receive handler for `object:modified` (source lines 226-235): engage
the gate, look the target up by identifier, and only if found merge the
payload's properties onto it (`target.set(obj); target.setCoords();
canvas.renderAll()`); then release the gate. The handler is total: an
absent identifier skips the mutation branch and raises no error. -/
def onObjectModified (st : ClientState) (obj : FabricObject) : ClientState :=
  match st.objects.find? (fun o => o.id == obj.id) with
  | some _ => { st with objects := setFirstMatching st.objects obj, isRemote := false }
  | none => { st with isRemote := false }

/-- Removal of the first object whose id matches, modelling
`canvas.remove(target)` for the target found by id. -/
def removeFirstWithId (objs : List FabricObject) (id : String) : List FabricObject :=
  match objs with
  | [] => []
  | o :: rest => if o.id == id then rest else o :: removeFirstWithId rest id

/-- Receive handler for `object:removed` (source lines 238-245): engage the
gate, look the target up by identifier, remove it only if found, release
the gate. Total; an absent identifier is a no-op. -/
def onObjectRemoved (st : ClientState) (id : String) : ClientState :=
  match st.objects.find? (fun o => o.id == id) with
  | some _ => { st with objects := removeFirstWithId st.objects id, isRemote := false }
  | none => { st with isRemote := false }

/-- Receive handler for `drawing` (source lines 248-254): engage the gate,
`canvas.loadFromJSON(data)` (replace the whole canvas content with the
snapshot), render, release the gate in the load callback. -/
def onDrawing (st : ClientState) (snap : Snapshot) : ClientState :=
  { st with objects := snap.objects, backgroundColor := snap.backgroundColor,
            isRemote := false }

/-- Change-capture handler for the canvas `object:added` event (source
lines 265-268): if the echo suppression gate `canvas._isRemote` is set the
handler returns without emitting; otherwise it emits
`object:added {roomId, obj: e.target.toObject(["id"])}`. -/
def emitAdded (st : ClientState) (roomId : String) (target : FabricObject) :
    List WireMessage :=
  if st.isRemote then [] else [WireMessage.objectAdded roomId target]

/-- Change-capture handler for the canvas `object:modified` event (source
lines 269-272), gated on `canvas._isRemote`. -/
def emitModified (st : ClientState) (roomId : String) (target : FabricObject) :
    List WireMessage :=
  if st.isRemote then [] else [WireMessage.objectModified roomId target]

/-- Change-capture handler for the canvas `object:removed` event (source
lines 273-276), gated on `canvas._isRemote`; emits the target's id only. -/
def emitRemoved (st : ClientState) (roomId : String) (target : FabricObject) :
    List WireMessage :=
  if st.isRemote then [] else [WireMessage.objectRemoved roomId target.id]

/-- The rectangle constructed by `addRectangle` (source lines 387-394):
`new Rect({fill: color, width: 100, height: 100, left: canvas.width/2-50,
top: canvas.height/2-50, id: uuidv4()})` with the 800x600 canvas, so
left = 350 and top = 250. -/
def mkRect (colorVal newId : String) : FabricObject :=
  { id := newId, type := "Rect",
    props := [("fill", PropVal.str colorVal), ("width", PropVal.num 100),
              ("height", PropVal.num 100), ("left", PropVal.num 350),
              ("top", PropVal.num 250)] }

/-- The circle constructed by `addCircle` (source lines 405-411):
`new Circle({fill: color, radius: 50, left: canvas.width/2,
top: canvas.height/2, id: uuidv4()})`, so left = 400 and top = 300. -/
def mkCircle (colorVal newId : String) : FabricObject :=
  { id := newId, type := "Circle",
    props := [("fill", PropVal.str colorVal), ("radius", PropVal.num 50),
              ("left", PropVal.num 400), ("top", PropVal.num 300)] }

/-- The text object constructed by the text-tool click handler (source
lines 140-152): `new IText("Type here...", {left, top, fontSize, fill,
fontFamily, padding: 8, borderColor, cornerColor, cornerSize: 10,
transparentCorners: false, id: uuidv4()})`. -/
def mkIText (x y fsize : Int) (colorVal fontFam newId : String) : FabricObject :=
  { id := newId, type := "IText",
    props := [("text", PropVal.str "Type here..."), ("left", PropVal.num x),
              ("top", PropVal.num y), ("fontSize", PropVal.num fsize),
              ("fill", PropVal.str colorVal), ("fontFamily", PropVal.str fontFam),
              ("padding", PropVal.num 8), ("borderColor", PropVal.str "#4a90e2"),
              ("cornerColor", PropVal.str "#4a90e2"), ("cornerSize", PropVal.num 10),
              ("transparentCorners", PropVal.bool false)] }

/-- The `addRectangle` click handler (source lines 384-400). `canvas.add(rect)`
fires the canvas `object:added` event, running `emitAdded` against the
current gate state (the rectangle already carries an id, so the assignId
handler of lines 62-66 is a no-op); then the handler performs its own
unconditional explicit emit
`socketRef.current.emit("object:added", {roomId, obj: rect.toObject(["id"])})`,
which consults no gate. Returns the updated canvas state and the emitted
messages in order. -/
def addRectangle (st : ClientState) (roomId colorVal newId : String) :
    ClientState × List WireMessage :=
  let rect := mkRect colorVal newId
  ({ st with objects := st.objects ++ [rect] },
   emitAdded st roomId rect ++ [WireMessage.objectAdded roomId rect])

/-- The `addCircle` click handler (source lines 402-417), analogous to
`addRectangle`: canvas add (firing the gated `emitAdded`) followed by an
unconditional explicit emit. -/
def addCircle (st : ClientState) (roomId colorVal newId : String) :
    ClientState × List WireMessage :=
  let circle := mkCircle colorVal newId
  ({ st with objects := st.objects ++ [circle] },
   emitAdded st roomId circle ++ [WireMessage.objectAdded roomId circle])

/-- The text-tool mouse-down handler (source lines 138-160): if the click
hit an existing object (`e.target`) it returns; otherwise it constructs the
IText, `canvas.add(text)` (firing the gated `emitAdded`), and then performs
its own unconditional explicit `object:added` emit. -/
def handleTextClick (st : ClientState) (roomId : String)
    (eTarget : Option FabricObject) (x y fsize : Int)
    (colorVal fontFam newId : String) : ClientState × List WireMessage :=
  match eTarget with
  | some _ => (st, [])
  | none =>
      let text := mkIText x y fsize colorVal fontFam newId
      ({ st with objects := st.objects ++ [text] },
       emitAdded st roomId text ++ [WireMessage.objectAdded roomId text])

/-- The eraser mouse-down handler (source lines 117-126): if the click hit
an object, first the unconditional explicit emit of
`object:removed {roomId, id: target.id}`, then `canvas.remove(target)`,
which fires the canvas `object:removed` event and hence the gated
`emitRemoved`. -/
def handleEraserClick (st : ClientState) (roomId : String)
    (target : Option FabricObject) : ClientState × List WireMessage :=
  match target with
  | none => (st, [])
  | some t =>
      ({ st with objects := removeFirstWithId st.objects t.id },
       WireMessage.objectRemoved roomId t.id :: emitRemoved st roomId t)

/-- State transition of `handleUndo` (source lines 298-326): only when
`history.length > 1`, read `currentState = history[history.length-1]` and
`prevState = history[history.length-2]`, load `prevState` into the canvas
under the gate, drop the last history entry (`history.slice(0,-1)`) and
push `currentState` onto the front of the redo stack. The inner match
models the two array indexings; under the length guard both lookups
succeed. -/
def handleUndoState (st : ClientState) : ClientState :=
  if st.history.length > 1 then
    match st.history.getLast?, st.history.dropLast.getLast? with
    | some currentState, some prevState =>
        { st with objects := prevState.objects,
                  backgroundColor := prevState.backgroundColor,
                  history := st.history.dropLast,
                  redoStack := currentState :: st.redoStack,
                  isRemote := false }
    | _, _ => st
  else st

/-- State transition of `handleRedo` (source lines 328-354): only when the
redo stack is non-empty, load `redoStack[0]` into the canvas under the
gate, append it to history and drop it from the redo stack
(`redoStack.slice(1)`). -/
def handleRedoState (st : ClientState) : ClientState :=
  match st.redoStack with
  | [] => st
  | nextState :: rest =>
      { st with objects := nextState.objects,
                backgroundColor := nextState.backgroundColor,
                history := st.history ++ [nextState],
                redoStack := rest,
                isRemote := false }

/-- State transition of `handleClear` (source lines 356-381):
`canvas.clear()`, background reset to "#fff", the cleared `canvas.toJSON()`
appended to history, and the redo stack reset to empty. (The `_isClearing`
flag set and reset around the clear has no observable effect: no handler in
the component reads it.) -/
def handleClearState (st : ClientState) : ClientState :=
  { st with objects := [], backgroundColor := "#fff",
            history := st.history ++ [{ objects := [], backgroundColor := "#fff" }],
            redoStack := [] }

/-- Full `handleUndo(remote)`: the state transition plus the command relay.
The `canvas-action {action: "undo"}` emit of lines 320-325 runs whenever
`remote` is false (it sits outside the history-length guard) and is
suppressed when the call is marked remote. -/
def handleUndo (remote : Bool) (roomId : String) (st : ClientState) :
    ClientState × List WireMessage :=
  (handleUndoState st,
   if remote then [] else [WireMessage.canvasAction roomId "undo"])

/-- Full `handleRedo(remote)` (source lines 328-354), analogous to
`handleUndo`. -/
def handleRedo (remote : Bool) (roomId : String) (st : ClientState) :
    ClientState × List WireMessage :=
  (handleRedoState st,
   if remote then [] else [WireMessage.canvasAction roomId "redo"])

/-- Full `handleClear(remote)` (source lines 356-381). -/
def handleClear (remote : Bool) (roomId : String) (st : ClientState) :
    ClientState × List WireMessage :=
  (handleClearState st,
   if remote then [] else [WireMessage.canvasAction roomId "clear"])

/-- Dispatch of one incoming socket message against the registered
listeners (source lines 195-254). `room-joined` has an empty handler and
`access-denied` only raises an alert, so neither touches the state. There
is no registered listener for `canvas-action` anywhere in the component,
so socket.io drops such a message: the state is unchanged and nothing is
logged. -/
def handleServerMessage (g : String → Option (FabricObject → Except String FabricObject))
    (st : ClientState) (msg : ServerMessage) : ClientState × List LogEntry :=
  match msg with
  | ServerMessage.roomJoined => (st, [])
  | ServerMessage.accessDenied _ => (st, [])
  | ServerMessage.objectAdded obj => onObjectAdded g st obj
  | ServerMessage.objectModified obj => (onObjectModified st obj, [])
  | ServerMessage.objectRemoved id => (onObjectRemoved st id, [])
  | ServerMessage.drawing snap => (onDrawing st snap, [])
  | ServerMessage.canvasAction _ => (st, [])

/-- The props of the Whiteboard component (source lines 8-13). -/
structure WhiteboardProps where
  roomId : String
  password : String
  role : String
  username : String
deriving DecidableEq

/-- The `join-room` emit of the socket-setup effect (source lines 188-193):
the only place in the component where the `role` prop is used. -/
def joinRoomMessage (p : WhiteboardProps) : WireMessage :=
  WireMessage.joinRoom p.roomId p.password p.role p.username

/-- The `addRectangle` handler as it runs inside the component: the room id
comes from the props; the `role` prop is not consulted on this or any other
edit/emit path. -/
def whiteboardAddRectangle (p : WhiteboardProps) (st : ClientState)
    (colorVal newId : String) : ClientState × List WireMessage :=
  addRectangle st p.roomId colorVal newId

/-- The client state right after the canvas-initialization effect (source
lines 38-57): empty 800x600 canvas with white background, gate off,
`setHistory([fabricCanvas.toJSON()])` seeding the history with the initial
empty snapshot, empty redo stack. -/
def initialClientState : ClientState :=
  { objects := [], backgroundColor := "#fff", isRemote := false,
    history := [{ objects := [], backgroundColor := "#fff" }],
    redoStack := [] }

/-- One local user action, abstracted for the history machine. A
`localEdit` is any non-undo/redo/clear edit of the document (freehand
stroke, shape/text add, modify, erase), carrying the resulting object
collection. In the component such an edit only mutates the canvas and runs
the emit handlers of lines 262-287; `setHistory` / `setRedoStack` are
called nowhere but in the initialization effect (line 51), `handleUndo`
(lines 313-314), `handleRedo` (lines 341-342) and `handleClear`
(lines 368-369), so a local edit leaves `history` and `redoStack`
untouched. -/
inductive ClientOp where
  | localEdit (newObjects : List FabricObject)
  | undo
  | redo
  | clear
deriving DecidableEq

/-- Effect of one local action on the client state, per the component's
handlers. -/
def clientStep (st : ClientState) (op : ClientOp) : ClientState :=
  match op with
  | ClientOp.localEdit objs => { st with objects := objs }
  | ClientOp.undo => handleUndoState st
  | ClientOp.redo => handleRedoState st
  | ClientOp.clear => handleClearState st

/-- Run a sequence of local actions from a starting state. -/
def runOps (st : ClientState) (ops : List ClientOp) : ClientState :=
  ops.foldl clientStep st

/-- A concrete rectangle used in evaluations. -/
def testRect : FabricObject := mkRect "#ff0000" "r1"

/-- A concrete reconstruction registry used in evaluations: the "Rect" tag
reconstructs successfully (fabric's registered class), the "Bad" tag models
a registered class whose asynchronous `fromObject` throws, and every other
tag is unregistered (`classRegistry.getClass` returns nothing). -/
def testRegistry : String → Option (FabricObject → Except String FabricObject) :=
  fun t =>
    if t == "Rect" then some (fun o => Except.ok o)
    else if t == "Bad" then some (fun _ => Except.error "bad payload")
    else none

/-- Helper: a list on which `any p` is false filters by `p` to the empty
list. -/
theorem filter_of_any_false {α : Type} (p : α → Bool) (l : List α)
    (h : l.any p = false) : l.filter p = [] := by
  induction l with
  | nil => rfl
  | cons x xs ih =>
      simp only [List.any_cons, Bool.or_eq_false_iff] at h
      simp [List.filter_cons, h.1, ih h.2]

/-- Helper: a list none of whose elements satisfies `p`, extended by one
element that does, filters to exactly that element. -/
theorem filter_append_singleton {α : Type} (p : α → Bool) (l : List α) (a : α)
    (h : l.any p = false) (ha : p a = true) :
    ((l ++ [a]).filter p).length = 1 := by
  simp [List.filter_append, filter_of_any_false p l h, ha]

/-- Claim C2: applying the same object:added Operation twice (same object
identifier) to a client's canvas yields exactly one object with that
identifier. The receive handler (source lines 201-220) adds the
reconstructed object only if no existing object on the canvas already has
its id, so the second application leaves the object collection unchanged,
and starting from a canvas with no object of that id the collection ends
with exactly one object carrying it. -/
theorem object_added_idempotent
    (g : String → Option (FabricObject → Except String FabricObject))
    (st : ClientState) (obj r : FabricObject)
    (f : FabricObject → Except String FabricObject)
    (hk : g obj.type = some f) (hf : f obj = Except.ok r) :
    ((onObjectAdded g (onObjectAdded g st obj).1 obj).1).objects
      = ((onObjectAdded g st obj).1).objects ∧
    (st.objects.any (fun o => o.id == r.id) = false →
      (((onObjectAdded g st obj).1).objects.filter (fun o => o.id == r.id)).length
        = 1) := by
  have hchar : ∀ s : ClientState, onObjectAdded g s obj
      = if s.objects.any (fun o => o.id == r.id) then
          ({ s with isRemote := false }, [])
        else ({ s with objects := s.objects ++ [r], isRemote := false }, []) := by
    intro s
    simp only [onObjectAdded, hk, hf]
  refine ⟨?_, ?_⟩
  · cases h : st.objects.any (fun o => o.id == r.id) <;>
      simp [hchar, h, List.any_append]
  · intro hfr
    simp only [hchar, hfr, Bool.false_eq_true, if_false]
    exact filter_append_singleton _ st.objects r hfr (by simp)

/-- Witness for C2: a fresh rectangle added twice through the handler on
the initial empty canvas. -/
theorem object_added_idempotent_witness :
    ((onObjectAdded testRegistry
        (onObjectAdded testRegistry initialClientState testRect).1 testRect).1).objects
      = ((onObjectAdded testRegistry initialClientState testRect).1).objects ∧
    (((onObjectAdded testRegistry initialClientState testRect).1).objects.filter
        (fun o => o.id == testRect.id)).length = 1 :=
  ⟨(object_added_idempotent testRegistry initialClientState testRect testRect
      (fun o => Except.ok o) rfl rfl).1,
   (object_added_idempotent testRegistry initialClientState testRect testRect
      (fun o => Except.ok o) rfl rfl).2 rfl⟩

/-- Claim C3: an object:modified or object:removed message whose identifier
matches no object on the receiving canvas leaves the object collection
unchanged (the `find` comes back empty and the mutation branch is skipped;
both handlers are total, so no error is raised). -/
theorem modify_remove_unknown_id_noop (st : ClientState) (obj : FabricObject)
    (id : String)
    (hm : st.objects.find? (fun o => o.id == obj.id) = none)
    (hr : st.objects.find? (fun o => o.id == id) = none) :
    (onObjectModified st obj).objects = st.objects ∧
    (onObjectRemoved st id).objects = st.objects := by
  constructor
  · unfold onObjectModified
    rw [hm]
  · unfold onObjectRemoved
    rw [hr]

/-- Witness for C3: modifying and removing unknown identifiers on the
initial empty canvas. -/
theorem modify_remove_unknown_id_noop_witness :
    (onObjectModified initialClientState testRect).objects
      = initialClientState.objects ∧
    (onObjectRemoved initialClientState "missing-id").objects
      = initialClientState.objects :=
  modify_remove_unknown_id_noop initialClientState testRect "missing-id" rfl rfl

/-- Claim C8: on an object:added payload whose type tag has no registered
class the Operation is dropped with a logged warning, on a reconstruction
error it is dropped with a logged error, and on every path (unknown type,
thrown reconstruction, success with or without a duplicate) the handler
ends with the echo suppression gate released, because the reset sits in the
finally block of the try (source lines 201-220). -/
theorem added_error_paths_release_gate
    (g : String → Option (FabricObject → Except String FabricObject))
    (st : ClientState) (obj : FabricObject) :
    ((onObjectAdded g st obj).1).isRemote = false ∧
    (g obj.type = none →
      onObjectAdded g st obj
        = ({ st with isRemote := false },
           [LogEntry.warn ("Unknown fabric object type: " ++ obj.type)])) ∧
    (∀ (f : FabricObject → Except String FabricObject) (e : String),
      g obj.type = some f → f obj = Except.error e →
      onObjectAdded g st obj
        = ({ st with isRemote := false },
           [LogEntry.error ("Error restoring object: " ++ e)])) := by
  refine ⟨?_, ?_, ?_⟩
  · cases hg : g obj.type with
    | none => simp [onObjectAdded, hg]
    | some f =>
        cases hr : f obj with
        | error e => simp [onObjectAdded, hg, hr]
        | ok fabricObj =>
            cases h : st.objects.any (fun o => o.id == fabricObj.id) <;>
              simp [onObjectAdded, hg, hr, h]
  · intro hg
    simp only [onObjectAdded, hg]
  · intro f e hg hr
    simp only [onObjectAdded, hg, hr]

/-- Witness for C8: an unregistered "Unknown" tag and a "Bad" tag whose
reconstruction throws, both against the initial canvas. -/
theorem added_error_paths_release_gate_witness :
    ((onObjectAdded testRegistry initialClientState
        { id := "u1", type := "Unknown", props := [] }).1).isRemote = false ∧
    onObjectAdded testRegistry initialClientState
        { id := "u1", type := "Unknown", props := [] }
      = ({ initialClientState with isRemote := false },
         [LogEntry.warn ("Unknown fabric object type: " ++ "Unknown")]) ∧
    onObjectAdded testRegistry initialClientState
        { id := "b1", type := "Bad", props := [] }
      = ({ initialClientState with isRemote := false },
         [LogEntry.error ("Error restoring object: " ++ "bad payload")]) :=
  ⟨(added_error_paths_release_gate testRegistry initialClientState
      { id := "u1", type := "Unknown", props := [] }).1,
   (added_error_paths_release_gate testRegistry initialClientState
      { id := "u1", type := "Unknown", props := [] }).2.1 rfl,
   (added_error_paths_release_gate testRegistry initialClientState
      { id := "b1", type := "Bad", props := [] }).2.2
     (fun _ => Except.error "bad payload") "bad payload" rfl rfl⟩

/-- Helper: undo keeps the history non-empty (it pops only under the
length > 1 guard). -/
theorem handleUndoState_history_pos (st : ClientState)
    (h : 1 ≤ st.history.length) : 1 ≤ (handleUndoState st).history.length := by
  unfold handleUndoState
  by_cases hlen : st.history.length > 1
  · rw [if_pos hlen]
    cases hc : st.history.getLast? with
    | none => exact h
    | some c =>
        cases hp : st.history.dropLast.getLast? with
        | none => exact h
        | some p =>
            simp only [List.length_dropLast]
            omega
  · rw [if_neg hlen]
    exact h

/-- Helper: redo keeps the history non-empty (it only appends). -/
theorem handleRedoState_history_pos (st : ClientState)
    (h : 1 ≤ st.history.length) : 1 ≤ (handleRedoState st).history.length := by
  unfold handleRedoState
  cases hr : st.redoStack with
  | nil => exact h
  | cons a rest =>
      simp only [List.length_append, List.length_cons, List.length_nil]
      omega

/-- Helper: every local action preserves a non-empty history. -/
theorem clientStep_history_pos (st : ClientState) (op : ClientOp)
    (h : 1 ≤ st.history.length) : 1 ≤ (clientStep st op).history.length := by
  cases op with
  | localEdit objs => exact h
  | undo => exact handleUndoState_history_pos st h
  | redo => exact handleRedoState_history_pos st h
  | clear =>
      simp only [clientStep, handleClearState, List.length_append]
      omega

/-- Helper: any run of local actions from a state with non-empty history
ends with non-empty history. -/
theorem runOps_history_pos (ops : List ClientOp) (st : ClientState)
    (h : 1 ≤ st.history.length) : 1 ≤ (runOps st ops).history.length := by
  induction ops generalizing st with
  | nil => exact h
  | cons op rest ih => exact ih (clientStep st op) (clientStep_history_pos st op h)

/-- Claim C9: the history stack is never empty in any state reachable from
the initial state (seeded with the initial empty-canvas snapshot); undo
changes nothing unless `history.length > 1`, redo changes nothing unless
the redo stack is non-empty, and clear appends one snapshot, so
`history.length >= 1` is an invariant preserved by every operation. -/
theorem history_stack_invariant (ops : List ClientOp) :
    1 ≤ (runOps initialClientState ops).history.length ∧
    (∀ st : ClientState, st.history.length ≤ 1 → handleUndoState st = st) ∧
    (∀ st : ClientState, st.redoStack = [] → handleRedoState st = st) ∧
    (∀ st : ClientState,
      (handleClearState st).history.length = st.history.length + 1) := by
  refine ⟨runOps_history_pos ops initialClientState (by decide), ?_, ?_, ?_⟩
  · intro st hst
    unfold handleUndoState
    rw [if_neg (by omega)]
  · intro st hst
    unfold handleRedoState
    rw [hst]
  · intro st
    simp [handleClearState]

/-- Witness for C9: a concrete run, undo on the initial one-snapshot
history, and redo on an empty redo stack. -/
theorem history_stack_invariant_witness :
    1 ≤ (runOps initialClientState [ClientOp.clear, ClientOp.undo]).history.length ∧
    handleUndoState initialClientState = initialClientState ∧
    handleRedoState initialClientState = initialClientState :=
  ⟨(history_stack_invariant [ClientOp.clear, ClientOp.undo]).1,
   (history_stack_invariant []).2.1 initialClientState (by decide),
   (history_stack_invariant []).2.2.1 initialClientState rfl⟩

/-- Claim C1 counterexample: a local rectangle add performed while the echo
suppression gate is engaged still emits one Operation, because the explicit
emit inside `addRectangle` (source line 397) does not consult
`canvas._isRemote`; the claim that every local-edit path emits zero
Operations under the gate is therefore false. -/
theorem gate_engaged_addRectangle_still_emits :
    (addRectangle { initialClientState with isRemote := true }
        "room1" "#000000" "rid1").2.length = 1 :=
  rfl

/-- Claim C1 as amended: while the gate is engaged the three canvas-event
emit handlers (source lines 265-276) emit nothing, but the explicit emits
in `addRectangle`, `addCircle`, the text-click handler and the eraser
handler are unconditional, so each of those paths still emits exactly its
one explicit Operation (only the event-handler duplicate is suppressed). -/
theorem gate_suppresses_event_emits_only (st : ClientState)
    (roomId colorVal fontFam newId : String) (x y fsize : Int)
    (t obj : FabricObject) :
    emitAdded { st with isRemote := true } roomId obj = [] ∧
    emitModified { st with isRemote := true } roomId obj = [] ∧
    emitRemoved { st with isRemote := true } roomId obj = [] ∧
    (addRectangle { st with isRemote := true } roomId colorVal newId).2
      = [WireMessage.objectAdded roomId (mkRect colorVal newId)] ∧
    (addCircle { st with isRemote := true } roomId colorVal newId).2
      = [WireMessage.objectAdded roomId (mkCircle colorVal newId)] ∧
    (handleTextClick { st with isRemote := true } roomId none x y fsize
        colorVal fontFam newId).2
      = [WireMessage.objectAdded roomId (mkIText x y fsize colorVal fontFam newId)] ∧
    (handleEraserClick { st with isRemote := true } roomId (some t)).2
      = [WireMessage.objectRemoved roomId t.id] :=
  ⟨rfl, rfl, rfl, rfl, rfl, rfl, rfl⟩

/-- Claim C4: evaluation of the undo/redo stack law at N = 1 local edit,
U = 1 undo, R = 0 redos from the initial state. The component never
appends a snapshot to `history` on a local edit (no handler calls
`setHistory` outside initialization, undo, redo and clear), so the undo's
`history.length > 1` guard fails: the document still contains the edited
object (the law demands the document after 0 edits, i.e. the empty
canvas), and already after the single edit `history.length` is 1 where the
law demands 1 + N = 2. -/
theorem undo_redo_law_fails_on_code :
    (runOps initialClientState
        [ClientOp.localEdit [testRect], ClientOp.undo]).objects = [testRect] ∧
    (runOps initialClientState
        [ClientOp.localEdit [testRect], ClientOp.undo]).history.length = 1 ∧
    (runOps initialClientState
        [ClientOp.localEdit [testRect]]).history.length = 1 :=
  ⟨rfl, rfl, rfl⟩

/-- Claim C5: evaluation of a local edit performed while the redo stack is
non-empty (state reached by clear then undo). The edit leaves the redo
stack untouched (still holding the cleared snapshot) and appends nothing
to the history, where the claim demands the current snapshot appended to
history and the redo stack emptied. -/
theorem local_edit_keeps_redo_and_history :
    (runOps initialClientState
        [ClientOp.clear, ClientOp.undo, ClientOp.localEdit [testRect]]).redoStack
      = [{ objects := [], backgroundColor := "#fff" }] ∧
    (runOps initialClientState
        [ClientOp.clear, ClientOp.undo, ClientOp.localEdit [testRect]]).history
      = [{ objects := [], backgroundColor := "#fff" }] ∧
    (runOps initialClientState
        [ClientOp.clear, ClientOp.undo, ClientOp.localEdit [testRect]]).objects
      = [testRect] :=
  ⟨rfl, rfl, rfl⟩

/-- Claim C6: a canvas-action command arriving from the room has no
receiver: dispatching it leaves the client state unchanged and logs
nothing, and "canvas-action" is not among the socket events the component
registers a listener for — while the sending side of the command relay
does exist (a local undo/redo/clear with remote = false emits the
corresponding `{roomId, action}` command with no snapshot payload). -/
theorem canvas_action_relay_has_no_receiver
    (g : String → Option (FabricObject → Except String FabricObject))
    (st : ClientState) (roomId action : String) :
    handleServerMessage g st (ServerMessage.canvasAction action) = (st, []) ∧
    registeredSocketEvents.contains "canvas-action" = false ∧
    (handleUndo false roomId st).2 = [WireMessage.canvasAction roomId "undo"] ∧
    (handleRedo false roomId st).2 = [WireMessage.canvasAction roomId "redo"] ∧
    (handleClear false roomId st).2 = [WireMessage.canvasAction roomId "clear"] :=
  ⟨rfl, by decide, rfl, rfl, rfl⟩

/-- Claim C7: the `role` prop is never consulted on the emit paths — a
participant whose role is "viewer" emits mutating Operations exactly as an
editor does (here: the two object:added emissions of a rectangle add), and
nothing in this repository rejects them. -/
theorem role_never_enforced_on_emits (p : WhiteboardProps) (st : ClientState)
    (r colorVal newId : String) :
    whiteboardAddRectangle { p with role := r } st colorVal newId
      = whiteboardAddRectangle p st colorVal newId ∧
    (whiteboardAddRectangle
        { roomId := "room1", password := "", role := "viewer", username := "v" }
        initialClientState "#000000" "rid1").2
      = [WireMessage.objectAdded "room1" (mkRect "#000000" "rid1"),
         WireMessage.objectAdded "room1" (mkRect "#000000" "rid1")] :=
  ⟨rfl, rfl⟩

/-- Claim C10: with the gate not engaged (the normal case for a local
edit), each explicit local-edit path emits its Operation twice — once from
the canvas event handler firing on the mutation and once from the explicit
emit in the creating/removing handler — with identical payloads, so the
receivers' Add-idempotence and Remove no-op safety absorb the duplicate. -/
theorem local_edit_paths_emit_twice (st : ClientState)
    (roomId colorVal fontFam newId : String) (x y fsize : Int)
    (t : FabricObject) :
    (addRectangle { st with isRemote := false } roomId colorVal newId).2
      = [WireMessage.objectAdded roomId (mkRect colorVal newId),
         WireMessage.objectAdded roomId (mkRect colorVal newId)] ∧
    (addCircle { st with isRemote := false } roomId colorVal newId).2
      = [WireMessage.objectAdded roomId (mkCircle colorVal newId),
         WireMessage.objectAdded roomId (mkCircle colorVal newId)] ∧
    (handleTextClick { st with isRemote := false } roomId none x y fsize
        colorVal fontFam newId).2
      = [WireMessage.objectAdded roomId (mkIText x y fsize colorVal fontFam newId),
         WireMessage.objectAdded roomId (mkIText x y fsize colorVal fontFam newId)] ∧
    (handleEraserClick { st with isRemote := false } roomId (some t)).2
      = [WireMessage.objectRemoved roomId t.id,
         WireMessage.objectRemoved roomId t.id] :=
  ⟨rfl, rfl, rfl, rfl⟩

end Whiteboard
